import Mathlib

/-!
# Verification of the Stellar Descent asset-pipeline core

Shallow embedding of the host-independent logic of the repository:

* `scripts/retexture_marines.py` — the luminance-preserving tint filter
  (`tint_image_pixels`) and the texture-role classifier (`classify_texture`);
* `scripts/camo_palettes.py` — the campaign-progress lookup
  (`get_campaign_progress`) and the weathering profile computation
  (`get_weathering`), together with the static tables they read.

Real-valued quantities of the Python source (floats) are modelled as exact
rationals `ℚ`; numeric literals such as `0.299` denote the exact rational
`299/1000`.  Python dicts are modelled as association lists with `List.lookup`,
which mirrors first-match key lookup.  A fallible operation (numpy `reshape`
raising on a size mismatch) is modelled with `Option`: `none` is the raised
error.  `tint_image_pixels` mutates its Blender image in place and returns
`None` in Python; the embedding is the state transformer sending the image
before the call to the image after the call.
-/

/-- An RGB colour, each channel a rational (the source keeps them in 0–1). -/
structure RGB where
  r : ℚ
  g : ℚ
  b : ℚ
deriving DecidableEq, Repr

/-- A Blender image as seen by `tint_image_pixels`: a size (`image.size`)
and a flat float buffer (`image.pixels`).  The buffer is stored row-major,
four floats (RGBA) per pixel when well formed. -/
structure Image where
  width : ℕ
  height : ℕ
  pixels : List ℚ
deriving DecidableEq, Repr

/-- One RGBA pixel, as produced by `reshape(h, w, 4)` on the flat buffer. -/
structure Pixel where
  r : ℚ
  g : ℚ
  b : ℚ
  a : ℚ
deriving DecidableEq, Repr

/-- Pointwise maximum on `ℚ`, written so that it reduces in the kernel. -/
def rmax (x y : ℚ) : ℚ := if x ≤ y then y else x

/-- Pointwise minimum on `ℚ`, written so that it reduces in the kernel. -/
def rmin (x y : ℚ) : ℚ := if x ≤ y then x else y

/-- `np.clip(x, 0.0, 1.0)` on a scalar: `min(max(x, 0), 1)`. -/
def clip01 (x : ℚ) : ℚ := rmin (rmax x 0) 1

theorem rmax_eq_max (x y : ℚ) : rmax x y = max x y := by
  unfold rmax; split <;> [exact (max_eq_right (by assumption)).symm;
    exact (max_eq_left (le_of_not_le (by assumption))).symm]

theorem rmin_eq_min (x y : ℚ) : rmin x y = min x y := by
  unfold rmin; split <;> [exact (min_eq_left (by assumption)).symm;
    exact (min_eq_right (le_of_not_le (by assumption))).symm]

theorem clip01_eq (x : ℚ) : clip01 x = min (max x 0) 1 := by
  rw [clip01, rmin_eq_min, rmax_eq_max]

/-- Group a flat buffer into RGBA pixels: the pixel structure produced by
`reshape(h, w, 4)`, flattened over the two spatial axes (the per-pixel
arithmetic of the source never mixes distinct pixels, so the row/column
split is irrelevant).  A trailing fragment shorter than 4 is dropped;
`tint_image_pixels` only ever applies this to a buffer whose length is an
exact multiple of 4. -/
def chunk4 : List ℚ → List Pixel
  | r :: g :: b :: a :: rest => ⟨r, g, b, a⟩ :: chunk4 rest
  | _ => []

/-- Flatten pixels back to the flat buffer (`np.concatenate` + `flatten`). -/
def flat4 (l : List Pixel) : List ℚ :=
  l.flatMap fun p => [p.r, p.g, p.b, p.a]

/-- The per-pixel arithmetic of `tint_image_pixels` (source lines 103–114):
luminance with the Rec.-709-style constants, tinted candidate
`lum * target`, blend `original*(1-strength) + tinted*strength`,
`np.clip(·, 0, 1)` on the RGB result, alpha passed through. -/
def tintPixel (target : RGB) (strength : ℚ) (p : Pixel) : Pixel :=
  let lum := 0.299 * p.r + 0.587 * p.g + 0.114 * p.b
  let tintedR := lum * target.r
  let tintedG := lum * target.g
  let tintedB := lum * target.b
  let resR := p.r * (1 - strength) + tintedR * strength
  let resG := p.g * (1 - strength) + tintedG * strength
  let resB := p.b * (1 - strength) + tintedB * strength
  ⟨clip01 resR, clip01 resG, clip01 resB, p.a⟩

/-- `tint_image_pixels(image, target_color, strength)`
(`scripts/retexture_marines.py`, lines 84–117).

The Python function computes `n_pixels = w * h * 4`, slices
`image.pixels[:n_pixels]` (Python slicing truncates silently when the
buffer is longer), and calls `reshape(h, w, 4)`, which raises a numpy
shape error exactly when the sliced data holds fewer than `n_pixels`
values.  On success it tints every pixel as in `tintPixel` and assigns
the result back into `image.pixels[:n_pixels]`, leaving any buffer tail
beyond `n_pixels` untouched.  The embedding returns the image state after
the call, or `none` when reshape raises. -/
def tint_image_pixels (image : Image) (target_color : RGB) (strength : ℚ) :
    Option Image :=
  let n_pixels := image.width * image.height * 4
  let taken := image.pixels.take n_pixels
  if taken.length = n_pixels then
    let final := flat4 ((chunk4 taken).map (tintPixel target_color strength))
    some ⟨image.width, image.height, final ++ image.pixels.drop n_pixels⟩
  else
    none

/-- Does the character list `hay` start with `needle`?  Helper for the
Python substring test `needle in hay`. -/
def strStarts : List Char → List Char → Bool
  | [], _ => true
  | _ :: _, [] => false
  | c :: cs, d :: ds => c == d && strStarts cs ds

/-- Does `needle` occur as a contiguous run inside `hay`? -/
def hasSub (needle : List Char) : List Char → Bool
  | [] => strStarts needle []
  | d :: ds => strStarts needle (d :: ds) || hasSub needle ds

/-- The Python membership test `needle in hay` on strings. -/
def strContains (hay needle : String) : Bool := hasSub needle.data hay.data

/-- Python's `str.lower()` on the ASCII texture names this pipeline sees:
each character is lower-cased. -/
def strLower (s : String) : String := ⟨s.data.map Char.toLower⟩

/-- `any(k in name for k in kws)` from `classify_texture`. -/
def kwMatch (name : String) (kws : List String) : Bool :=
  kws.any fun k => strContains name k

/-- `classify_texture(image_name)` (`scripts/retexture_marines.py`,
lines 120–135): lower-case the name, then test the fixed keyword sets in
source order; the first `if` that matches wins and an unmatched name is
`"unknown"`. -/
def classify_texture (image_name : String) : String :=
  let name := strLower image_name
  if kwMatch name ["diffuse", "color", "basecolor", "albedo"] then "diffuse"
  else if kwMatch name ["emissive", "emission", "glow"] then "emissive"
  else if kwMatch name ["bump", "normal", "nrm"] then "normal"
  else if kwMatch name ["ao", "ambient", "occlusion"] then "ao"
  else if kwMatch name ["rough", "roughness"] then "roughness"
  else if kwMatch name ["metal", "metallic", "metalness"] then "metallic"
  else "unknown"

/-- First index of `x` in a list, mirroring Python's `list.index`
(which reports the first occurrence and raises when absent). -/
def listIndex (x : String) : List String → Option ℕ
  | [] => none
  | y :: ys => if y = x then some 0 else (listIndex x ys).map (· + 1)

/-- Key lookup in a Python dict modelled as an association list
(`d[k]` / `d.get(k)`; keys in the tables below are distinct). -/
def dictLookup {β : Type} (k : String) : List (String × β) → Option β
  | [] => none
  | (k1, v) :: rest => if k1 = k then some v else dictLookup k rest

/-- One row of `WEATHERING_LAYERS` (`scripts/camo_palettes.py`,
lines 122–177): a description, a tint and five intensity scalars. -/
structure WeatheringLayer where
  description : String
  tint : RGB
  dirt_intensity : ℚ
  frost_buildup : ℚ
  scratch_intensity : ℚ
  edge_wear : ℚ
  acid_burns : ℚ
deriving DecidableEq, Repr

/-- The dict returned by `get_weathering`: the (scaled) layer fields plus
the added `battle_damage` key. -/
structure WeatheringProfile extends WeatheringLayer where
  battle_damage : ℚ
deriving DecidableEq, Repr

/-- `WEATHERING_LAYERS` (`scripts/camo_palettes.py`, lines 122–177). -/
def WEATHERING_LAYERS : List (String × WeatheringLayer) :=
  [("ice",
    { description := "Frost buildup on joints, ice crystal deposits in crevices"
      tint := ⟨0.70, 0.82, 0.92⟩
      dirt_intensity := 0.10
      frost_buildup := 0.45
      scratch_intensity := 0.30
      edge_wear := 0.20
      acid_burns := 0.0 }),
   ("volcanic",
    { description := "Volcanic ash coating, heat discoloration, molten splatter"
      tint := ⟨0.40, 0.25, 0.15⟩
      dirt_intensity := 0.55
      frost_buildup := 0.0
      scratch_intensity := 0.40
      edge_wear := 0.45
      acid_burns := 0.10 }),
   ("hive",
    { description := "Chitin acid burns, bio-luminescent residue, organic slime"
      tint := ⟨0.25, 0.35, 0.18⟩
      dirt_intensity := 0.50
      frost_buildup := 0.0
      scratch_intensity := 0.35
      edge_wear := 0.30
      acid_burns := 0.55 }),
   ("station",
    { description := "Hydraulic fluid, lubricant stains, concrete dust, sparks"
      tint := ⟨0.30, 0.28, 0.25⟩
      dirt_intensity := 0.35
      frost_buildup := 0.0
      scratch_intensity := 0.50
      edge_wear := 0.45
      acid_burns := 0.05 }),
   ("surface",
    { description := "Alien dust, fine grit abrasion, UV fading"
      tint := ⟨0.45, 0.38, 0.30⟩
      dirt_intensity := 0.45
      frost_buildup := 0.0
      scratch_intensity := 0.35
      edge_wear := 0.30
      acid_burns := 0.08 })]

/-- `LEVEL_WEATHERING_MAP` (`scripts/camo_palettes.py`, lines 180–192). -/
def LEVEL_WEATHERING_MAP : List (String × String) :=
  [("anchor-station", "station"),
   ("landfall", "surface"),
   ("fob-delta", "station"),
   ("southern-ice", "ice"),
   ("canyon-run", "volcanic"),
   ("hive-assault", "hive"),
   ("mining-depths", "station"),
   ("brothers-in-arms", "surface"),
   ("the-breach", "hive"),
   ("extraction", "surface"),
   ("final-escape", "station")]

/-- `CAMPAIGN_ORDER` (`scripts/camo_palettes.py`, lines 195–207). -/
def CAMPAIGN_ORDER : List String :=
  ["landfall", "anchor-station", "fob-delta", "southern-ice", "canyon-run",
   "hive-assault", "mining-depths", "brothers-in-arms", "the-breach",
   "extraction", "final-escape"]

/-- `get_campaign_progress(level_id)` (`scripts/camo_palettes.py`,
lines 210–216): `CAMPAIGN_ORDER.index(level_id) / max(len - 1, 1)`, and
`0.5` when `list.index` raises `ValueError`. -/
def get_campaign_progress (level_id : String) : ℚ :=
  match listIndex level_id CAMPAIGN_ORDER with
  | some idx => (idx : ℚ) / ((max (CAMPAIGN_ORDER.length - 1) 1 : ℕ) : ℚ)
  | none => 0.5

/-- `get_weathering(level_id, campaign_progress)` (`scripts/camo_palettes.py`,
lines 219–243).  `campaign_progress=None` (modelled as `none`) defaults to
`get_campaign_progress(level_id)`; the level's layer name defaults to
`"surface"`; the five intensity keys of a copy of the table row are scaled
by `0.4 + 0.6 * campaign_progress` and `battle_damage = campaign_progress
* 0.6` is added.  A missing `WEATHERING_LAYERS` key would raise `KeyError`
(modelled as `none`); it never happens for this table. -/
def get_weathering (level_id : String) (campaign_progress : Option ℚ) :
    Option WeatheringProfile :=
  let p := campaign_progress.getD (get_campaign_progress level_id)
  let layer_name := (dictLookup level_id LEVEL_WEATHERING_MAP).getD "surface"
  match dictLookup layer_name WEATHERING_LAYERS with
  | none => none
  | some layer =>
      let scale := 0.4 + 0.6 * p
      some ⟨{ layer with
                dirt_intensity := layer.dirt_intensity * scale
                frost_buildup := layer.frost_buildup * scale
                scratch_intensity := layer.scratch_intensity * scale
                edge_wear := layer.edge_wear * scale
                acid_burns := layer.acid_burns * scale },
            p * 0.6⟩

/-- The body of `get_weathering` with the global `WEATHERING_LAYERS` dict
threaded through as explicit state, so that the in-place dict operations
of the source are visible: `WEATHERING_LAYERS[layer_name].copy()` copies
the row before the `layer[key] *= scale` updates, so only the local copy
is written to and the table that the call returns alongside the profile
is the table it was given. -/
def get_weathering_state (tbl : List (String × WeatheringLayer))
    (level_id : String) (campaign_progress : Option ℚ) :
    Option WeatheringProfile × List (String × WeatheringLayer) :=
  let p := campaign_progress.getD (get_campaign_progress level_id)
  let layer_name := (dictLookup level_id LEVEL_WEATHERING_MAP).getD "surface"
  match dictLookup layer_name tbl with
  | none => (none, tbl)
  | some row =>
      let layer := row
      let scale := 0.4 + 0.6 * p
      let layer := { layer with dirt_intensity := layer.dirt_intensity * scale }
      let layer := { layer with frost_buildup := layer.frost_buildup * scale }
      let layer := { layer with scratch_intensity := layer.scratch_intensity * scale }
      let layer := { layer with edge_wear := layer.edge_wear * scale }
      let layer := { layer with acid_burns := layer.acid_burns * scale }
      (some ⟨layer, p * 0.6⟩, tbl)

/-! ## Helper lemmas -/

theorem clip01_nonneg (x : ℚ) : 0 ≤ clip01 x := by
  rw [clip01_eq]; exact le_min (le_max_right x 0) zero_le_one

theorem clip01_le_one (x : ℚ) : clip01 x ≤ 1 := by
  rw [clip01_eq]; exact min_le_right _ _

theorem clip01_of_bounds {x : ℚ} (h0 : 0 ≤ x) (h1 : x ≤ 1) : clip01 x = x := by
  rw [clip01_eq, max_eq_left h0, min_eq_left h1]

theorem chunk4_cons (r g b a : ℚ) (rest : List ℚ) :
    chunk4 (r :: g :: b :: a :: rest) = ⟨r, g, b, a⟩ :: chunk4 rest := rfl

theorem flat4_nil : flat4 [] = [] := rfl

theorem flat4_cons (p : Pixel) (ps : List Pixel) :
    flat4 (p :: ps) = p.r :: p.g :: p.b :: p.a :: flat4 ps := by
  simp [flat4]

theorem chunk4_flat4 : ∀ L : List Pixel, chunk4 (flat4 L) = L
  | [] => rfl
  | p :: ps => by rw [flat4_cons, chunk4_cons, chunk4_flat4 ps]

theorem flat4_length : ∀ L : List Pixel, (flat4 L).length = 4 * L.length
  | [] => rfl
  | p :: ps => by rw [flat4_cons]; simp [flat4_length ps]; ring

theorem flat4_chunk4 : ∀ l : List ℚ, l.length % 4 = 0 → flat4 (chunk4 l) = l
  | [], _ => rfl
  | [_], h => by simp at h
  | [_, _], h => by simp at h
  | [_, _, _], h => by simp at h
  | r :: g :: b :: a :: rest, h => by
      have h4 : rest.length % 4 = 0 := by
        simp only [List.length_cons] at h; omega
      rw [chunk4_cons, flat4_cons, flat4_chunk4 rest h4]

theorem chunk4_length : ∀ l : List ℚ, (chunk4 l).length = l.length / 4
  | [] => rfl
  | [_] => by simp [chunk4]
  | [_, _] => by simp [chunk4]
  | [_, _, _] => by simp [chunk4]
  | r :: g :: b :: a :: rest => by
      rw [chunk4_cons]
      simp only [List.length_cons, chunk4_length rest]
      omega

theorem dictLookup_mem {β : Type} {k : String} {v : β} :
    ∀ {l : List (String × β)}, dictLookup k l = some v → v ∈ l.map Prod.snd := by
  intro l
  induction l with
  | nil => intro h; simp [dictLookup] at h
  | cons hd tl ih =>
      obtain ⟨k1, w⟩ := hd
      simp only [dictLookup]
      split
      · intro h
        simp only [Option.some.injEq] at h
        simp [h]
      · intro h
        simpa using Or.inr (ih h)

theorem listIndex_none {x : String} :
    ∀ {l : List String}, x ∉ l → listIndex x l = none := by
  intro l
  induction l with
  | nil => intro; rfl
  | cons y ys ih =>
      intro h
      simp only [List.mem_cons, not_or] at h
      have hne : ¬(y = x) := fun hy => h.1 hy.symm
      simp only [listIndex, if_neg hne, ih h.2, Option.map_none']

theorem listIndex_lt {x : String} :
    ∀ {l : List String} {i : ℕ}, listIndex x l = some i → i < l.length := by
  intro l
  induction l with
  | nil => intro i h; simp [listIndex] at h
  | cons y ys ih =>
      intro i h
      simp only [listIndex] at h
      split at h
      · simp only [Option.some.injEq] at h
        simp [← h]
      · obtain ⟨j, hj, rfl⟩ := Option.map_eq_some'.mp h
        have := ih hj
        simp only [List.length_cons]
        omega

theorem tintPixel_alpha (target : RGB) (strength : ℚ) (p : Pixel) :
    (tintPixel target strength p).a = p.a := rfl

theorem tintPixel_formula (target : RGB) (strength : ℚ) (p : Pixel) :
    tintPixel target strength p =
      ⟨clip01 (p.r * (1 - strength) +
         (0.299 * p.r + 0.587 * p.g + 0.114 * p.b) * target.r * strength),
       clip01 (p.g * (1 - strength) +
         (0.299 * p.r + 0.587 * p.g + 0.114 * p.b) * target.g * strength),
       clip01 (p.b * (1 - strength) +
         (0.299 * p.r + 0.587 * p.g + 0.114 * p.b) * target.b * strength),
       p.a⟩ := rfl

theorem tint_some (image : Image) (target : RGB) (strength : ℚ)
    (h : image.width * image.height * 4 ≤ image.pixels.length) :
    tint_image_pixels image target strength =
      some ⟨image.width, image.height,
        flat4 ((chunk4 (image.pixels.take (image.width * image.height * 4))).map
            (tintPixel target strength)) ++
          image.pixels.drop (image.width * image.height * 4)⟩ := by
  have hc : (image.pixels.take (image.width * image.height * 4)).length =
      image.width * image.height * 4 := by
    rw [List.length_take]; omega
  simp [tint_image_pixels, hc]

theorem tinted_flat_length (image : Image) (target : RGB) (strength : ℚ)
    (h : image.width * image.height * 4 ≤ image.pixels.length) :
    (flat4 ((chunk4 (image.pixels.take (image.width * image.height * 4))).map
        (tintPixel target strength))).length = image.width * image.height * 4 := by
  have hc : (image.pixels.take (image.width * image.height * 4)).length =
      image.width * image.height * 4 := by
    rw [List.length_take]; omega
  rw [flat4_length, List.length_map, chunk4_length, hc]
  omega

theorem get_weathering_some (level : String) (p : ℚ) (layer : WeatheringLayer)
    (h : dictLookup ((dictLookup level LEVEL_WEATHERING_MAP).getD "surface")
        WEATHERING_LAYERS = some layer) :
    get_weathering level (some p) =
      some ⟨{ layer with
                dirt_intensity := layer.dirt_intensity * (0.4 + 0.6 * p)
                frost_buildup := layer.frost_buildup * (0.4 + 0.6 * p)
                scratch_intensity := layer.scratch_intensity * (0.4 + 0.6 * p)
                edge_wear := layer.edge_wear * (0.4 + 0.6 * p)
                acid_burns := layer.acid_burns * (0.4 + 0.6 * p) },
            p * 0.6⟩ := by
  simp [get_weathering, h]

theorem layer_lookup_exists (level : String) : ∃ layer : WeatheringLayer,
    dictLookup ((dictLookup level LEVEL_WEATHERING_MAP).getD "surface")
        WEATHERING_LAYERS = some layer ∧
      0 ≤ layer.dirt_intensity ∧ 0 ≤ layer.frost_buildup ∧
      0 ≤ layer.scratch_intensity ∧ 0 ≤ layer.edge_wear ∧
      0 ≤ layer.acid_burns := by
  have hmem : ((dictLookup level LEVEL_WEATHERING_MAP).getD "surface") ∈
      ["station", "surface", "ice", "volcanic", "hive"] := by
    rcases hv : dictLookup level LEVEL_WEATHERING_MAP with _ | v
    · simp
    · have := dictLookup_mem hv
      simp only [LEVEL_WEATHERING_MAP, List.map_cons, List.map_nil] at this
      simp only [Option.getD_some]
      simp only [List.mem_cons, List.not_mem_nil, or_false] at this ⊢
      tauto
  simp only [List.mem_cons, List.not_mem_nil, or_false] at hmem
  rcases hmem with h | h | h | h | h <;> rw [h] <;>
    simp [WEATHERING_LAYERS, dictLookup] <;> norm_num

theorem scale_lower_bound {base p : ℚ} (hb : 0 ≤ base) (h0 : 0 ≤ p) :
    0.4 * base ≤ base * (0.4 + 0.6 * p) := by nlinarith [mul_nonneg hb h0]

theorem scale_upper_bound {base p : ℚ} (hb : 0 ≤ base) (h1 : p ≤ 1) :
    base * (0.4 + 0.6 * p) ≤ base := by
  nlinarith [mul_nonneg hb (sub_nonneg.mpr h1)]

/-! ## Claim theorems: the tint filter -/

/-- C1: for every image buffer that can fill the `w*h*4` reshape (and any
`targetColor` and `strength`, in range or not), `tint_image_pixels`
succeeds and rewrites the pixel block as an independent per-pixel map;
each pixel's output is `clamp(original*(1-strength) + (0.299*R + 0.587*G
+ 0.114*B)*targetColor*strength)` per RGB channel, every output RGB
channel lies in `[0,1]`, and at `strength = 1` the output RGB is exactly
`clamp(L * targetColor)`. -/
theorem tint_per_pixel_spec (image : Image) (target : RGB) (strength : ℚ)
    (h : image.width * image.height * 4 ≤ image.pixels.length) :
    ∃ out, tint_image_pixels image target strength = some out ∧
      out.pixels.take (image.width * image.height * 4) =
        flat4 ((chunk4 (image.pixels.take (image.width * image.height * 4))).map
          (tintPixel target strength)) ∧
      (∀ p : Pixel, tintPixel target strength p =
        ⟨clip01 (p.r * (1 - strength) +
           (0.299 * p.r + 0.587 * p.g + 0.114 * p.b) * target.r * strength),
         clip01 (p.g * (1 - strength) +
           (0.299 * p.r + 0.587 * p.g + 0.114 * p.b) * target.g * strength),
         clip01 (p.b * (1 - strength) +
           (0.299 * p.r + 0.587 * p.g + 0.114 * p.b) * target.b * strength),
         p.a⟩) ∧
      (∀ p ∈ chunk4 (out.pixels.take (image.width * image.height * 4)),
        0 ≤ p.r ∧ p.r ≤ 1 ∧ 0 ≤ p.g ∧ p.g ≤ 1 ∧ 0 ≤ p.b ∧ p.b ≤ 1) ∧
      (strength = 1 → ∀ p : Pixel, tintPixel target strength p =
        ⟨clip01 ((0.299 * p.r + 0.587 * p.g + 0.114 * p.b) * target.r),
         clip01 ((0.299 * p.r + 0.587 * p.g + 0.114 * p.b) * target.g),
         clip01 ((0.299 * p.r + 0.587 * p.g + 0.114 * p.b) * target.b),
         p.a⟩) := by
  refine ⟨_, tint_some image target strength h, ?_, ?_, ?_, ?_⟩
  · exact List.take_left' (tinted_flat_length image target strength h)
  · exact fun p => tintPixel_formula target strength p
  · intro p hp
    rw [List.take_left' (tinted_flat_length image target strength h),
      chunk4_flat4] at hp
    obtain ⟨q, _, rfl⟩ := List.mem_map.mp hp
    exact ⟨clip01_nonneg _, clip01_le_one _, clip01_nonneg _, clip01_le_one _,
      clip01_nonneg _, clip01_le_one _⟩
  · rintro rfl p
    rw [tintPixel_formula]
    simp only [Pixel.mk.injEq]
    exact ⟨congrArg clip01 (by ring), congrArg clip01 (by ring),
      congrArg clip01 (by ring), trivial⟩

/-- Witness for C1 at a concrete 1×1 image with an out-of-range source
channel, an out-of-range target colour and `strength = 2`. -/
theorem tint_per_pixel_spec_witness :
    ∃ out, tint_image_pixels ⟨1, 1, [2, 0, 0, 1/2]⟩ ⟨3, 0, 0⟩ 2 = some out := by
  obtain ⟨out, hout, -, -, -, -⟩ :=
    tint_per_pixel_spec ⟨1, 1, [2, 0, 0, 1/2]⟩ ⟨3, 0, 0⟩ 2 (by decide)
  exact ⟨out, hout⟩

/-- C2 (counterexample): a 1×1 image whose flat buffer holds 5 values — a
length that is NOT a multiple of 4 — does not make `tint_image_pixels`
fail; the call succeeds and the fifth value `9` is silently ignored by
the tint (carried over unprocessed), contradicting "fails with a
ShapeMismatch error, and never silently truncates". -/
theorem tint_shape_no_error_counterexample :
    ([1, 1, 1, 1, 9] : List ℚ).length % 4 ≠ 0 ∧
    tint_image_pixels ⟨1, 1, [1, 1, 1, 1, 9]⟩ ⟨0, 0, 0⟩ 1 =
      some ⟨1, 1, [0, 0, 0, 1, 9]⟩ := by
  constructor
  · decide
  · norm_num [tint_image_pixels, chunk4, flat4, tintPixel, clip01, rmin, rmax,
      List.take, List.drop]

/-- C2 (amended): `tint_image_pixels` fails (numpy raises on the
`reshape(h, w, 4)`) exactly when the flat buffer holds fewer than
`width*height*4` values; a buffer at least that long is processed, with
values beyond `width*height*4` silently left untouched.  In particular a
channel count below 4 (flat length `w*h*c` with `c < 4`, for a nonempty
image) is rejected, but an over-long buffer of any length is not. -/
theorem tint_none_iff_buffer_short (image : Image) (target : RGB) (strength : ℚ) :
    tint_image_pixels image target strength = none ↔
      image.pixels.length < image.width * image.height * 4 := by
  rcases Nat.lt_or_ge image.pixels.length (image.width * image.height * 4) with hl | hg
  · have hne : (image.pixels.take (image.width * image.height * 4)).length ≠
        image.width * image.height * 4 := by rw [List.length_take]; omega
    simp [tint_image_pixels, hne, hl]
  · rw [tint_some image target strength hg]
    simp
    omega

/-- C5 (counterexample): `tint_image_pixels` does not leave the input
buffer unchanged — it writes the tinted values back into the image's own
pixel buffer (`image.pixels[:n_pixels] = ...` in the source).  After
tinting an all-white 1×1 image toward black at strength 1, the buffer
that held `[1, 1, 1, 1]` holds `[0, 0, 0, 1]`. -/
theorem tint_mutates_input_counterexample :
    tint_image_pixels ⟨1, 1, [1, 1, 1, 1]⟩ ⟨0, 0, 0⟩ 1 =
      some ⟨1, 1, [0, 0, 0, 1]⟩ ∧ ([0, 0, 0, 1] : List ℚ) ≠ [1, 1, 1, 1] := by
  constructor
  · norm_num [tint_image_pixels, chunk4, flat4, tintPixel, clip01, rmin, rmax,
      List.take, List.drop]
  · intro hl
    have h01 : (0 : ℚ) = 1 := by
      simpa using congrArg (fun l => l.getD 0 37) hl
    norm_num at h01

/-- C5 (amended): `tint_image_pixels` updates the input image's buffer in
place (Python returns `None`, having assigned `image.pixels[:n_pixels]`):
the image after the call has the same width, height and flat buffer
length as before, and all data beyond the first `width*height*4` values
is untouched; no separate fresh output buffer exists in which to keep
the original values. -/
theorem tint_inplace_same_dims (image : Image) (target : RGB) (strength : ℚ)
    (h : image.width * image.height * 4 ≤ image.pixels.length) :
    ∃ out, tint_image_pixels image target strength = some out ∧
      out.width = image.width ∧ out.height = image.height ∧
      out.pixels.length = image.pixels.length ∧
      out.pixels.drop (image.width * image.height * 4) =
        image.pixels.drop (image.width * image.height * 4) := by
  refine ⟨_, tint_some image target strength h, rfl, rfl, ?_, ?_⟩
  · rw [List.length_append, tinted_flat_length image target strength h,
      List.length_drop]
    omega
  · exact List.drop_left' (tinted_flat_length image target strength h)

/-- Witness for the amended C5 at a concrete 2-pixel image. -/
theorem tint_inplace_same_dims_witness :
    ∃ out, tint_image_pixels ⟨2, 1, [1, 1, 1, 1, 0, 0, 0, 0]⟩ ⟨1, 0, 0⟩ (1/2) =
        some out ∧
      out.width = 2 ∧ out.height = 1 ∧ out.pixels.length = 8 ∧
      out.pixels.drop 8 = List.drop 8 ([1, 1, 1, 1, 0, 0, 0, 0] : List ℚ) := by
  obtain ⟨out, hout, hw, hh, hl, hd⟩ :=
    tint_inplace_same_dims ⟨2, 1, [1, 1, 1, 1, 0, 0, 0, 0]⟩ ⟨1, 0, 0⟩ (1/2)
      (by decide)
  exact ⟨out, hout, hw, hh, hl, hd⟩

/-- C6: tinting never modifies the alpha channel: for every image that
reshapes successfully and every `strength` and `targetColor` (in range or
not), the per-pixel alpha values of the output block equal those of the
input block. -/
theorem tint_alpha_preserved (image : Image) (target : RGB) (strength : ℚ)
    (h : image.width * image.height * 4 ≤ image.pixels.length) :
    ∃ out, tint_image_pixels image target strength = some out ∧
      (chunk4 (out.pixels.take (image.width * image.height * 4))).map
          (fun p => p.a) =
        (chunk4 (image.pixels.take (image.width * image.height * 4))).map
          (fun p => p.a) := by
  refine ⟨_, tint_some image target strength h, ?_⟩
  rw [List.take_left' (tinted_flat_length image target strength h), chunk4_flat4,
    List.map_map]
  exact List.map_congr_left fun p _ => rfl

/-- Witness for C6 at a concrete 1×1 image with out-of-range strength and
target. -/
theorem tint_alpha_preserved_witness :
    ∃ out, tint_image_pixels ⟨1, 1, [1, 0, 0, 1/2]⟩ ⟨-1, 0, 2⟩ 5 = some out ∧
      (chunk4 (out.pixels.take 4)).map (fun p => p.a) =
        (chunk4 (List.take 4 ([1, 0, 0, 1/2] : List ℚ))).map (fun p => p.a) := by
  obtain ⟨out, hout, ha⟩ :=
    tint_alpha_preserved ⟨1, 1, [1, 0, 0, 1/2]⟩ ⟨-1, 0, 2⟩ 5 (by decide)
  exact ⟨out, hout, ha⟩

/-- C7: at `strength = 0` the tint is the identity on any image whose RGB
channels already lie in `[0,1]`: the post-call image equals the input
image exactly (RGB unchanged by the blend, clamp a no-op, alpha passed
through). -/
theorem tint_strength_zero_identity (image : Image) (target : RGB)
    (h : image.width * image.height * 4 ≤ image.pixels.length)
    (hin : ∀ p ∈ chunk4 (image.pixels.take (image.width * image.height * 4)),
      0 ≤ p.r ∧ p.r ≤ 1 ∧ 0 ≤ p.g ∧ p.g ≤ 1 ∧ 0 ≤ p.b ∧ p.b ≤ 1) :
    tint_image_pixels image target 0 = some image := by
  rw [tint_some image target 0 h]
  have hlen : (image.pixels.take (image.width * image.height * 4)).length =
      image.width * image.height * 4 := by
    rw [List.length_take]; omega
  have hmod : (image.pixels.take (image.width * image.height * 4)).length % 4 = 0 := by
    rw [hlen]; exact Nat.mul_mod_left _ 4
  have hmap : (chunk4 (image.pixels.take (image.width * image.height * 4))).map
      (tintPixel target 0) =
        chunk4 (image.pixels.take (image.width * image.height * 4)) := by
    refine (List.map_congr_left fun p hp => ?_).trans
      (List.map_id (chunk4 (image.pixels.take (image.width * image.height * 4))))
    obtain ⟨h1, h2, h3, h4, h5, h6⟩ := hin p hp
    rw [tintPixel_formula]
    have er : p.r * (1 - 0) +
        (0.299 * p.r + 0.587 * p.g + 0.114 * p.b) * target.r * 0 = p.r := by ring
    have eg : p.g * (1 - 0) +
        (0.299 * p.r + 0.587 * p.g + 0.114 * p.b) * target.g * 0 = p.g := by ring
    have eb : p.b * (1 - 0) +
        (0.299 * p.r + 0.587 * p.g + 0.114 * p.b) * target.b * 0 = p.b := by ring
    rw [er, eg, eb, clip01_of_bounds h1 h2, clip01_of_bounds h3 h4,
      clip01_of_bounds h5 h6]
    rfl
  rw [hmap, flat4_chunk4 _ hmod, List.take_append_drop]

/-- Witness for C7 at a concrete 1×1 image (alpha deliberately out of
range — only RGB needs to be in `[0,1]`). -/
theorem tint_strength_zero_identity_witness :
    tint_image_pixels ⟨1, 1, [1, 0, 1/2, 3]⟩ ⟨5, 5, 5⟩ 0 =
      some ⟨1, 1, [1, 0, 1/2, 3]⟩ :=
  tint_strength_zero_identity ⟨1, 1, [1, 0, 1/2, 3]⟩ ⟨5, 5, 5⟩ (by decide)
    (by
      intro p hp
      simp only [List.take, chunk4, List.mem_singleton] at hp
      subst hp
      norm_num)

/-! ## Claim theorems: the weathering system -/

/-- C3: for every level identifier and progress `p ∈ [0,1]`,
`get_weathering` returns a profile whose five intensity scalars equal the
table base values times `scale = 0.4 + 0.6*p` — hence each lies in
`[0.4*base, base]` — whose `battle_damage` is exactly `p * 0.6` and whose
tint is the table tint unchanged; additionally the spec's worked example:
level `"southern-ice"` at `p = 0.6` yields `dirt_intensity = 0.076`,
`battle_damage = 0.36` and tint `(0.70, 0.82, 0.92)`. -/
theorem weathering_scale_bounds :
    (∀ (level : String) (p : ℚ), 0 ≤ p → p ≤ 1 →
      ∃ (layer : WeatheringLayer) (prof : WeatheringProfile),
        dictLookup ((dictLookup level LEVEL_WEATHERING_MAP).getD "surface")
            WEATHERING_LAYERS = some layer ∧
        get_weathering level (some p) = some prof ∧
        prof.dirt_intensity = layer.dirt_intensity * (0.4 + 0.6 * p) ∧
        prof.frost_buildup = layer.frost_buildup * (0.4 + 0.6 * p) ∧
        prof.scratch_intensity = layer.scratch_intensity * (0.4 + 0.6 * p) ∧
        prof.edge_wear = layer.edge_wear * (0.4 + 0.6 * p) ∧
        prof.acid_burns = layer.acid_burns * (0.4 + 0.6 * p) ∧
        prof.battle_damage = p * 0.6 ∧
        prof.tint = layer.tint ∧
        (0.4 * layer.dirt_intensity ≤ prof.dirt_intensity ∧
          prof.dirt_intensity ≤ layer.dirt_intensity) ∧
        (0.4 * layer.frost_buildup ≤ prof.frost_buildup ∧
          prof.frost_buildup ≤ layer.frost_buildup) ∧
        (0.4 * layer.scratch_intensity ≤ prof.scratch_intensity ∧
          prof.scratch_intensity ≤ layer.scratch_intensity) ∧
        (0.4 * layer.edge_wear ≤ prof.edge_wear ∧
          prof.edge_wear ≤ layer.edge_wear) ∧
        (0.4 * layer.acid_burns ≤ prof.acid_burns ∧
          prof.acid_burns ≤ layer.acid_burns)) ∧
    (∃ prof : WeatheringProfile,
      get_weathering "southern-ice" (some 0.6) = some prof ∧
        prof.dirt_intensity = 0.076 ∧ prof.battle_damage = 0.36 ∧
        prof.tint = ⟨0.70, 0.82, 0.92⟩) := by
  constructor
  · intro level p h0 h1
    obtain ⟨layer, hl, hb1, hb2, hb3, hb4, hb5⟩ := layer_lookup_exists level
    refine ⟨layer, _, hl, get_weathering_some level p layer hl,
      rfl, rfl, rfl, rfl, rfl, rfl, rfl,
      ⟨scale_lower_bound hb1 h0, scale_upper_bound hb1 h1⟩,
      ⟨scale_lower_bound hb2 h0, scale_upper_bound hb2 h1⟩,
      ⟨scale_lower_bound hb3 h0, scale_upper_bound hb3 h1⟩,
      ⟨scale_lower_bound hb4 h0, scale_upper_bound hb4 h1⟩,
      ⟨scale_lower_bound hb5 h0, scale_upper_bound hb5 h1⟩⟩
  · have hice : dictLookup
        ((dictLookup "southern-ice" LEVEL_WEATHERING_MAP).getD "surface")
          WEATHERING_LAYERS =
        some ⟨"Frost buildup on joints, ice crystal deposits in crevices",
          ⟨0.70, 0.82, 0.92⟩, 0.10, 0.45, 0.30, 0.20, 0.0⟩ := by
      simp [LEVEL_WEATHERING_MAP, WEATHERING_LAYERS, dictLookup]
    refine ⟨_, get_weathering_some "southern-ice" 0.6 _ hice, ?_, ?_, ?_⟩ <;>
      norm_num

/-- Witness for C3 at level `"southern-ice"` and progress `0.6`. -/
theorem weathering_scale_bounds_witness :
    ∃ (layer : WeatheringLayer) (prof : WeatheringProfile),
      dictLookup ((dictLookup "southern-ice" LEVEL_WEATHERING_MAP).getD "surface")
          WEATHERING_LAYERS = some layer ∧
      get_weathering "southern-ice" (some 0.6) = some prof ∧
      prof.dirt_intensity = layer.dirt_intensity * (0.4 + 0.6 * 0.6) ∧
      prof.frost_buildup = layer.frost_buildup * (0.4 + 0.6 * 0.6) ∧
      prof.scratch_intensity = layer.scratch_intensity * (0.4 + 0.6 * 0.6) ∧
      prof.edge_wear = layer.edge_wear * (0.4 + 0.6 * 0.6) ∧
      prof.acid_burns = layer.acid_burns * (0.4 + 0.6 * 0.6) ∧
      prof.battle_damage = 0.6 * 0.6 ∧
      prof.tint = layer.tint ∧
      (0.4 * layer.dirt_intensity ≤ prof.dirt_intensity ∧
        prof.dirt_intensity ≤ layer.dirt_intensity) ∧
      (0.4 * layer.frost_buildup ≤ prof.frost_buildup ∧
        prof.frost_buildup ≤ layer.frost_buildup) ∧
      (0.4 * layer.scratch_intensity ≤ prof.scratch_intensity ∧
        prof.scratch_intensity ≤ layer.scratch_intensity) ∧
      (0.4 * layer.edge_wear ≤ prof.edge_wear ∧
        prof.edge_wear ≤ layer.edge_wear) ∧
      (0.4 * layer.acid_burns ≤ prof.acid_burns ∧
        prof.acid_burns ≤ layer.acid_burns) :=
  weathering_scale_bounds.1 "southern-ice" 0.6 (by norm_num) (by norm_num)

/-- C4: `get_campaign_progress` maps the level at index `i` of the
campaign order to `i / (N-1)` (so the first level gives `0.0` and the
last `1.0`), is monotone in campaign position, returns exactly `0.5` for
identifiers absent from the order, and always produces a value in
`[0,1]` without failing. -/
theorem campaign_progress_spec :
    (∀ (s : String) (i : ℕ), listIndex s CAMPAIGN_ORDER = some i →
        get_campaign_progress s = (i : ℚ) / ((CAMPAIGN_ORDER.length : ℚ) - 1)) ∧
    get_campaign_progress "landfall" = 0 ∧
    get_campaign_progress "final-escape" = 1 ∧
    (∀ (s t : String) (i j : ℕ), listIndex s CAMPAIGN_ORDER = some i →
        listIndex t CAMPAIGN_ORDER = some j → i ≤ j →
        get_campaign_progress s ≤ get_campaign_progress t) ∧
    (∀ s : String, s ∉ CAMPAIGN_ORDER → get_campaign_progress s = 0.5) ∧
    (∀ s : String, 0 ≤ get_campaign_progress s ∧ get_campaign_progress s ≤ 1) := by
  have hn : CAMPAIGN_ORDER.length = 11 := by decide
  have hmax : (max (CAMPAIGN_ORDER.length - 1) 1 : ℕ) = 10 := by decide
  have hval : ∀ (s : String) (i : ℕ), listIndex s CAMPAIGN_ORDER = some i →
      get_campaign_progress s = (i : ℚ) / ((CAMPAIGN_ORDER.length : ℚ) - 1) := by
    intro s i h
    unfold get_campaign_progress
    rw [h, hmax, hn]
    norm_num
  have hmono : ∀ (s t : String) (i j : ℕ), listIndex s CAMPAIGN_ORDER = some i →
      listIndex t CAMPAIGN_ORDER = some j → i ≤ j →
      get_campaign_progress s ≤ get_campaign_progress t := by
    intro s t i j hs ht hij
    rw [hval s i hs, hval t j ht, hn]
    have h10 : (0 : ℚ) < (11 : ℕ) - 1 := by norm_num
    exact (div_le_div_iff_of_pos_right h10).mpr (by exact_mod_cast hij)
  have hnone : ∀ s : String, s ∉ CAMPAIGN_ORDER →
      get_campaign_progress s = 0.5 := by
    intro s hs
    unfold get_campaign_progress
    rw [listIndex_none hs]
  have hrange : ∀ s : String,
      0 ≤ get_campaign_progress s ∧ get_campaign_progress s ≤ 1 := by
    intro s
    rcases hidx : listIndex s CAMPAIGN_ORDER with _ | i
    · unfold get_campaign_progress
      rw [hidx]
      norm_num
    · have hi := listIndex_lt hidx
      rw [hn] at hi
      rw [hval s i hidx, hn]
      constructor
      · positivity
      · rw [div_le_one (by norm_num)]
        have hle : i ≤ 10 := by omega
        have h2 : ((i : ℚ)) ≤ 10 := by exact_mod_cast hle
        push_cast
        linarith
  exact ⟨hval, by rw [hval "landfall" 0 (by decide)]; norm_num,
    by rw [hval "final-escape" 10 (by decide), hn]; norm_num,
    hmono, hnone, hrange⟩

/-- Witness for C4: the unknown-level default, the index formula at
position 3 (`"southern-ice"`), and monotonicity between the first and
last level. -/
theorem campaign_progress_spec_witness :
    get_campaign_progress "nonexistent-level" = 0.5 ∧
    get_campaign_progress "southern-ice" =
      ((3 : ℕ) : ℚ) / ((CAMPAIGN_ORDER.length : ℚ) - 1) ∧
    get_campaign_progress "landfall" ≤ get_campaign_progress "final-escape" :=
  ⟨campaign_progress_spec.2.2.2.2.1 "nonexistent-level" (by decide),
   campaign_progress_spec.1 "southern-ice" 3 (by decide),
   campaign_progress_spec.2.2.2.1 "landfall" "final-escape" 0 10 (by decide)
     (by decide) (by decide)⟩

/-- C9: `get_weathering` never mutates the static `WEATHERING_LAYERS`
table.  In the state-passing embedding of the dict operations, the table
handed back by a call is exactly the table handed in, the profile
computed from the (unchanged) table agrees with the pure function, and a
second call after any first call sees the original base values. -/
theorem weathering_table_unchanged :
    (∀ (level : String) (p? : Option ℚ),
      (get_weathering_state WEATHERING_LAYERS level p?).2 = WEATHERING_LAYERS) ∧
    (∀ (level : String) (p? : Option ℚ),
      (get_weathering_state WEATHERING_LAYERS level p?).1 =
        get_weathering level p?) ∧
    (∀ (l1 : String) (p1 : Option ℚ) (l2 : String) (p2 : Option ℚ),
      (get_weathering_state (get_weathering_state WEATHERING_LAYERS l1 p1).2
          l2 p2).1 = get_weathering l2 p2) := by
  have hsnd : ∀ (tbl : List (String × WeatheringLayer)) (level : String)
      (p? : Option ℚ), (get_weathering_state tbl level p?).2 = tbl := by
    intro tbl level p?
    simp only [get_weathering_state]
    split <;> rfl
  have hfst : ∀ (level : String) (p? : Option ℚ),
      (get_weathering_state WEATHERING_LAYERS level p?).1 =
        get_weathering level p? := by
    intro level p?
    rcases h : dictLookup ((dictLookup level LEVEL_WEATHERING_MAP).getD "surface")
        WEATHERING_LAYERS with _ | row <;>
      simp [get_weathering_state, get_weathering, h]
  exact ⟨fun level p? => hsnd WEATHERING_LAYERS level p?, hfst,
    fun l1 p1 l2 p2 => by rw [hsnd]; exact hfst l2 p2⟩

/-- C10: `get_weathering` does not validate or clamp an explicitly
supplied `campaign_progress`: for every rational `p` the call returns
normally with each intensity equal to `base * (0.4 + 0.6*p)` and
`battle_damage = 0.6*p`; consequently intensities go negative for
`p < -2/3` (on a layer with positive base) and exceed the base for
`p > 1`. -/
theorem weathering_progress_unchecked :
    (∀ (level : String) (p : ℚ),
      ∃ (layer : WeatheringLayer) (prof : WeatheringProfile),
        dictLookup ((dictLookup level LEVEL_WEATHERING_MAP).getD "surface")
            WEATHERING_LAYERS = some layer ∧
        get_weathering level (some p) = some prof ∧
        prof.dirt_intensity = layer.dirt_intensity * (0.4 + 0.6 * p) ∧
        prof.frost_buildup = layer.frost_buildup * (0.4 + 0.6 * p) ∧
        prof.scratch_intensity = layer.scratch_intensity * (0.4 + 0.6 * p) ∧
        prof.edge_wear = layer.edge_wear * (0.4 + 0.6 * p) ∧
        prof.acid_burns = layer.acid_burns * (0.4 + 0.6 * p) ∧
        prof.battle_damage = 0.6 * p ∧
        prof.tint = layer.tint) ∧
    (∀ p : ℚ, p < -(2/3) →
      ∃ prof : WeatheringProfile,
        get_weathering "southern-ice" (some p) = some prof ∧
          prof.dirt_intensity < 0) ∧
    (∀ p : ℚ, 1 < p →
      ∃ prof : WeatheringProfile,
        get_weathering "southern-ice" (some p) = some prof ∧
          0.10 < prof.dirt_intensity) := by
  have hice : dictLookup
      ((dictLookup "southern-ice" LEVEL_WEATHERING_MAP).getD "surface")
        WEATHERING_LAYERS =
      some ⟨"Frost buildup on joints, ice crystal deposits in crevices",
        ⟨0.70, 0.82, 0.92⟩, 0.10, 0.45, 0.30, 0.20, 0.0⟩ := by
    simp [LEVEL_WEATHERING_MAP, WEATHERING_LAYERS, dictLookup]
  refine ⟨?_, ?_, ?_⟩
  · intro level p
    obtain ⟨layer, hl, -, -, -, -, -⟩ := layer_lookup_exists level
    exact ⟨layer, _, hl, get_weathering_some level p layer hl,
      rfl, rfl, rfl, rfl, rfl, mul_comm p 0.6, rfl⟩
  · intro p hp
    refine ⟨_, get_weathering_some "southern-ice" p _ hice, ?_⟩
    show (0.10 : ℚ) * (0.4 + 0.6 * p) < 0
    nlinarith
  · intro p hp
    refine ⟨_, get_weathering_some "southern-ice" p _ hice, ?_⟩
    show (0.10 : ℚ) < 0.10 * (0.4 + 0.6 * p)
    nlinarith

/-- Witness for C10 at `p = -1` (negative intensity) and `p = 2`
(intensity above base). -/
theorem weathering_progress_unchecked_witness :
    (∃ prof : WeatheringProfile,
      get_weathering "southern-ice" (some (-1)) = some prof ∧
        prof.dirt_intensity < 0) ∧
    (∃ prof : WeatheringProfile,
      get_weathering "southern-ice" (some 2) = some prof ∧
        0.10 < prof.dirt_intensity) :=
  ⟨weathering_progress_unchecked.2.1 (-1) (by norm_num),
   weathering_progress_unchecked.2.2 2 (by norm_num)⟩

/-! ## Claim theorems: texture classification -/

/-- C8: `classify_texture` is a total, deterministic, case-insensitive
function: its result is always one of the seven category names, it
depends only on the lower-cased input, the fixed keyword sets are tested
in the priority order diffuse, emissive, normal, ao, roughness, metallic
with the first match winning, an unmatched name yields `"unknown"`, a
name containing both "diffuse" and "normal" classifies as `"diffuse"`,
and `classify_texture "LightmapUV" = "unknown"`. -/
theorem classify_texture_spec :
    (∀ s : String, classify_texture s = "diffuse" ∨
      classify_texture s = "emissive" ∨ classify_texture s = "normal" ∨
      classify_texture s = "ao" ∨ classify_texture s = "roughness" ∨
      classify_texture s = "metallic" ∨ classify_texture s = "unknown") ∧
    (∀ s t : String, strLower s = strLower t →
      classify_texture s = classify_texture t) ∧
    (∀ s : String,
      kwMatch (strLower s) ["diffuse", "color", "basecolor", "albedo"] = true →
      classify_texture s = "diffuse") ∧
    (∀ s : String,
      kwMatch (strLower s) ["diffuse", "color", "basecolor", "albedo"] = false →
      kwMatch (strLower s) ["emissive", "emission", "glow"] = true →
      classify_texture s = "emissive") ∧
    (∀ s : String,
      kwMatch (strLower s) ["diffuse", "color", "basecolor", "albedo"] = false →
      kwMatch (strLower s) ["emissive", "emission", "glow"] = false →
      kwMatch (strLower s) ["bump", "normal", "nrm"] = true →
      classify_texture s = "normal") ∧
    (∀ s : String,
      kwMatch (strLower s) ["diffuse", "color", "basecolor", "albedo"] = false →
      kwMatch (strLower s) ["emissive", "emission", "glow"] = false →
      kwMatch (strLower s) ["bump", "normal", "nrm"] = false →
      kwMatch (strLower s) ["ao", "ambient", "occlusion"] = true →
      classify_texture s = "ao") ∧
    (∀ s : String,
      kwMatch (strLower s) ["diffuse", "color", "basecolor", "albedo"] = false →
      kwMatch (strLower s) ["emissive", "emission", "glow"] = false →
      kwMatch (strLower s) ["bump", "normal", "nrm"] = false →
      kwMatch (strLower s) ["ao", "ambient", "occlusion"] = false →
      kwMatch (strLower s) ["rough", "roughness"] = true →
      classify_texture s = "roughness") ∧
    (∀ s : String,
      kwMatch (strLower s) ["diffuse", "color", "basecolor", "albedo"] = false →
      kwMatch (strLower s) ["emissive", "emission", "glow"] = false →
      kwMatch (strLower s) ["bump", "normal", "nrm"] = false →
      kwMatch (strLower s) ["ao", "ambient", "occlusion"] = false →
      kwMatch (strLower s) ["rough", "roughness"] = false →
      kwMatch (strLower s) ["metal", "metallic", "metalness"] = true →
      classify_texture s = "metallic") ∧
    (∀ s : String,
      kwMatch (strLower s) ["diffuse", "color", "basecolor", "albedo"] = false →
      kwMatch (strLower s) ["emissive", "emission", "glow"] = false →
      kwMatch (strLower s) ["bump", "normal", "nrm"] = false →
      kwMatch (strLower s) ["ao", "ambient", "occlusion"] = false →
      kwMatch (strLower s) ["rough", "roughness"] = false →
      kwMatch (strLower s) ["metal", "metallic", "metalness"] = false →
      classify_texture s = "unknown") ∧
    classify_texture "Character_DiffuseColor_Normal" = "diffuse" ∧
    classify_texture "LightmapUV" = "unknown" := by
  refine ⟨?_, ?_, ?_, ?_, ?_, ?_, ?_, ?_, ?_, by decide, by decide⟩
  · intro s
    unfold classify_texture
    dsimp only
    split_ifs <;> simp
  · intro s t h
    simp only [classify_texture, h]
  · intro s h1
    simp [classify_texture, h1]
  · intro s h1 h2
    simp [classify_texture, h1, h2]
  · intro s h1 h2 h3
    simp [classify_texture, h1, h2, h3]
  · intro s h1 h2 h3 h4
    simp [classify_texture, h1, h2, h3, h4]
  · intro s h1 h2 h3 h4 h5
    simp [classify_texture, h1, h2, h3, h4, h5]
  · intro s h1 h2 h3 h4 h5 h6
    simp [classify_texture, h1, h2, h3, h4, h5, h6]
  · intro s h1 h2 h3 h4 h5 h6
    simp [classify_texture, h1, h2, h3, h4, h5, h6]

/-- Witness for C8: the priority clause on a name containing both
"Diffuse" and "Normal", case-insensitivity between two spellings, and
the roughness clause. -/
theorem classify_texture_spec_witness :
    classify_texture "Agent_Diffuse_Normal_01" = "diffuse" ∧
    classify_texture "MARINE_GLOW" = classify_texture "marine_glow" ∧
    classify_texture "marine_ROUGHNESS" = "roughness" :=
  ⟨classify_texture_spec.2.2.1 "Agent_Diffuse_Normal_01" (by decide),
   classify_texture_spec.2.1 "MARINE_GLOW" "marine_glow" (by decide),
   classify_texture_spec.2.2.2.2.2.2.1 "marine_ROUGHNESS" (by decide) (by decide)
     (by decide) (by decide) (by decide)⟩
